import Mathlib

/-!
Verification development for the LST_SITE dashboard's data pipeline.

The Python sources are shallowly embedded as executable Lean definitions:
Python strings become `List Char` (Python compares strings lexicographically
by code point, which is exactly the lexicographic order on the character
list), machine floats over the exact decimal constants of the source become
`ℚ`, and a float operation whose IEEE result would be NaN (a division by
zero) is embedded as `Option ℚ` returning `none`.  File-system state is an
association list from file names to raw file contents, listed in directory
order.  The embedded functions keep the names of the Python functions they
are translated from.
-/

namespace LstSite

/-- Python strings, embedded as their lists of characters. -/
abbrev Str := List Char

/-- Coerce a Lean string literal to the embedded string type. -/
def str (s : String) : Str := s.toList

/-- Lexicographic comparison of embedded strings by code point, the order
Python's `list.sort` uses on `str`. -/
def lexLe : Str → Str → Bool
  | [], _ => true
  | _ :: _, [] => false
  | a :: as, b :: bs => if a < b then true else if b < a then false else lexLe as bs

/-- Insert an element into a descending-sorted list of embedded strings,
keeping it descending (one step of Python's `list.sort(reverse=True)`). -/
def insertDesc (x : Str) : List Str → List Str
  | [] => [x]
  | y :: ys => if lexLe y x then x :: y :: ys else y :: insertDesc x ys

/-- Sort a list of embedded strings in descending lexicographic order,
embedding Python's `files.sort(reverse=True)`. -/
def sortDesc (l : List Str) : List Str := l.foldr insertDesc []

/-! ## `utils/utils/earth_engine.py` -/

/-- An axis-aligned bounding rectangle `[xmin, ymin, xmax, ymax]`, the only
geometry the source constructs (`ee.Geometry.Rectangle`). -/
structure Rect where
  xmin : ℚ
  ymin : ℚ
  xmax : ℚ
  ymax : ℚ
deriving DecidableEq, Repr

/-- The approximate Tamil Nadu state bounding box of `get_district_boundary`
(its decimal coordinates written as exact rationals). -/
def tamil_nadu : Rect := ⟨76, 8, 81, 14⟩

/-- The fixed table of per-district bounding boxes in `get_district_boundary`,
each decimal coordinate written as an exact rational over 10. -/
def district_coords : List (Str × Rect) :=
  [ (str "Chennai", ⟨801/10, 129/10, 803/10, 132/10⟩)
  , (str "Coimbatore", ⟨768/10, 109/10, 771/10, 112/10⟩)
  , (str "Madurai", ⟨78, 98/10, 783/10, 10⟩)
  , (str "Ariyalur", ⟨79, 11, 793/10, 113/10⟩)
  , (str "Cuddalore", ⟨795/10, 115/10, 798/10, 118/10⟩)
  , (str "Dharmapuri", ⟨78, 12, 783/10, 123/10⟩)
  , (str "Dindigul", ⟨778/10, 102/10, 781/10, 105/10⟩)
  , (str "Erode", ⟨774/10, 112/10, 777/10, 115/10⟩)
  , (str "Tirunelveli", ⟨776/10, 86/10, 779/10, 89/10⟩) ]

/-- `earth_engine.get_district_boundary`: `"All"` maps to the Tamil Nadu box,
a district in the fixed table maps to its listed rectangle, anything else
falls back to the fixed default rectangle. -/
def get_district_boundary (district_name : Str) : Rect :=
  if district_name = str "All" then
    tamil_nadu
  else
    match List.lookup district_name district_coords with
    | some r => r
    | none => ⟨78, 11, 785/10, 115/10⟩

/-- The query a call to `earth_engine.get_landsat_collection` issues to the
remote service: a source collection id, the start of the one-month date
window, a cloud-cover upper bound, and a one-sided sun-elevation filter. -/
structure LandsatQuery where
  collectionId : Str
  startYear : ℤ
  startMonth : ℤ
  cloudCoverLt : ℚ
  sunElevationGt : Option ℚ
  sunElevationLt : Option ℚ
deriving DecidableEq, Repr

/-- `earth_engine.get_landsat_collection`: chooses the Landsat 9 collection
for `year >= 2022`, Landsat 8 for `year >= 2013`, else Landsat 7; filters the
date to the month window, cloud cover below 20, and sun elevation above 40
for `'Daytime'` or below 40 otherwise. -/
def get_landsat_collection (year month : ℤ) (time_of_day : Str) : LandsatQuery where
  collectionId :=
    if year ≥ 2022 then str "LANDSAT/LC09/C02/T1_L2"
    else if year ≥ 2013 then str "LANDSAT/LC08/C02/T1_L2"
    else str "LANDSAT/LE07/C02/T1_L2"
  startYear := year
  startMonth := month
  cloudCoverLt := 20
  sunElevationGt := if time_of_day = str "Daytime" then some 40 else none
  sunElevationLt := if time_of_day = str "Daytime" then none else some 40

/-- A raster image, embedded pointwise: its named bands with the value each
band takes at an arbitrary fixed pixel. -/
structure Image where
  bands : List (Str × ℚ)
deriving DecidableEq, Repr

/-- `image.bandNames()`. -/
def Image.bandNames (img : Image) : List Str := img.bands.map Prod.fst

/-- `image.select([name])`, read at the fixed pixel: the value of the named
band.  Selecting an absent band is a server-side evaluation error in the
real system; the embedding returns `0` there only to stay total, and no
theorem relies on that value. -/
def Image.select (img : Image) (nm : Str) : ℚ := (List.lookup nm img.bands).getD 0

/-- A derived single-band layer, embedded pointwise: the band name given by
`rename`, the value at the fixed pixel, and the region it was clipped to
(`none` before any `clip`).  The visualization palettes the source attaches
with `set` carry no data and are not modelled. -/
structure Layer where
  name : Str
  pixelValue : ℚ
  clippedTo : Option Rect
deriving DecidableEq, Repr

/-- `layer.clip(region)`. -/
def Layer.clip (l : Layer) (r : Rect) : Layer := { l with clippedTo := some r }

/-- The truth value `get_lst_layer`'s branch conditions actually have:
`band_names.contains(...)` is a lazy server-side `ee.ComputedObject`, the
client never calls `.getInfo()` on it (contrast `process_landsat_data`,
which does before its own `if`), and the earthengine client gives computed
objects no `__bool__` — so each Python `if` tests default object
truthiness, which is always `True`. -/
def eeComputedTruthy : Bool := true

/-- `earth_engine.get_lst_layer`: the source is written as a probe of the
thermal band names `ST_B10`, `ST_B6`, `B10`, `B6` with a constant-`298`
fallback, but every branch condition is the always-true truthiness of a
server-side computed object (`eeComputedTruthy`), so the first branch is
taken unconditionally: the image's `ST_B10` band is scaled by `0.00341802`,
offset by `149.0` to Kelvin, decreased by `273.15` for Celsius, and renamed
`LST`.  The remaining branches mirror the source but are unreachable. -/
def get_lst_layer (image : Image) : Layer :=
  let _ := image.bandNames
  let thermal : ℚ :=
    if eeComputedTruthy then
      image.select (str "ST_B10") * (341802/100000000) + 149
    else if eeComputedTruthy then
      image.select (str "ST_B6") * (341802/100000000) + 149
    else if eeComputedTruthy then
      image.select (str "B10") * (341802/100000000) + 149
    else if eeComputedTruthy then
      image.select (str "B6") * (341802/100000000) + 149
    else 298
  { name := str "LST", pixelValue := thermal - 27315/100, clippedTo := none }

/-- `image.normalizedDifference([a, b])` at the fixed pixel. -/
def normalizedDifference (a b : ℚ) : ℚ := (a - b) / (a + b)

/-- `earth_engine.get_ndvi_layer`: the normalized difference of the `SR_B5`
(near-infrared) and `SR_B4` (red) bands, renamed to `NDVI`. -/
def get_ndvi_layer (image : Image) : Layer where
  name := str "NDVI"
  pixelValue :=
    normalizedDifference (image.select (str "SR_B5")) (image.select (str "SR_B4"))
  clippedTo := none

/-! ## `utils/data_processing.py` -/

/-- A filtered image collection as the source observes it: the number of
images it holds (`collection.size().getInfo()`) and its `collection.median()`
composite. -/
structure Collection where
  size : ℕ
  medianImage : Image
deriving Repr

/-- `data_processing.process_landsat_data`: when the filtered collection is
empty, returns a placeholder constant layer (`25.0` for LST, `0.3` for NDVI)
clipped to the district region; otherwise derives the LST or NDVI layer from
the median image and clips it.  The `time_of_day` argument only selects
visualization ranges in the source and so does not affect the embedded
data. -/
def process_landsat_data (collection : Collection) (district : Str)
    (variable_type : Str) (time_of_day : Str) : Layer × Rect :=
  let _ := time_of_day
  let region := get_district_boundary district
  if collection.size = 0 then
    let empty_value : ℚ := if variable_type = str "LST" then 25 else 3/10
    let data_layer : Layer :=
      if variable_type = str "LST" then
        { name := str "LST", pixelValue := empty_value, clippedTo := none }
      else
        { name := str "NDVI", pixelValue := empty_value, clippedTo := none }
    (data_layer.clip region, region)
  else
    let data_layer :=
      if variable_type = str "LST" then get_lst_layer collection.medianImage
      else get_ndvi_layer collection.medianImage
    (data_layer.clip region, region)

/-- The result of `data_processing.calculate_regression`.  Each field is
`Option ℚ`: `none` embeds an IEEE NaN, the value numpy produces when the
computation divides a zero by zero. -/
structure RegressionResult where
  slope : Option ℚ
  intercept : Option ℚ
  r_squared : Option ℚ
deriving DecidableEq, Repr

/-- `data_processing.calculate_regression` over the `(x, y)` value columns.
`np.polyfit(x, y, 1)` is embedded by its closed-form least-squares solution
`slope = (n·Σxy − Σx·Σy) / (n·Σx² − (Σx)²)`,
`intercept = (Σy − slope·Σx) / n`, undefined when the `x` column has zero
variance (a rank-deficient fit).  `r = np.corrcoef(x, y)[0, 1]` squares to
`r² = (n·Σxy − Σx·Σy)² / ((n·Σx² − (Σx)²) · (n·Σy² − (Σy)²))`; when either
variance factor is zero numpy's `r` is a 0/0, i.e. NaN, embedded as `none`.
The source's `p_value = 2·(1 − |r·√((n−2)/(1−r²))|)` involves a real square
root and no claim concerns its value, so it is not carried in the result. -/
def calculate_regression (x y : List ℚ) : RegressionResult :=
  let n : ℚ := x.length
  let sx := x.sum
  let sy := y.sum
  let sxx := (x.map (fun v => v * v)).sum
  let syy := (y.map (fun v => v * v)).sum
  let sxy := ((x.zip y).map (fun p => p.1 * p.2)).sum
  let dx := n * sxx - sx * sx
  let dy := n * syy - sy * sy
  { slope := if dx = 0 then none else some ((n * sxy - sx * sy) / dx)
  , intercept :=
      if dx = 0 then none
      else some ((sy - ((n * sxy - sx * sy) / dx) * sx) / n)
  , r_squared :=
      if dx = 0 ∨ dy = 0 then none
      else some ((n * sxy - sx * sy) ^ 2 / (dx * dy)) }

/-- The minimum of a list of values (`0` on the empty list, which the
reducer model only meets under a nonemptiness hypothesis). -/
def listMin : List ℚ → ℚ
  | [] => 0
  | x :: xs => xs.foldl min x

/-- The maximum of a list of values (`0` on the empty list). -/
def listMax : List ℚ → ℚ
  | [] => 0
  | x :: xs => xs.foldl max x

/-- The arithmetic mean of a list of values. -/
def mean (l : List ℚ) : ℚ := l.sum / (l.length : ℚ)

/-- The population variance of a list of values. -/
def variance (l : List ℚ) : ℚ :=
  (l.map (fun v => (v - mean l) ^ 2)).sum / (l.length : ℚ)

/-- The nearest-rank `p`-th percentile: the entry of the ascending sort at
index `min (p·n/100) (n−1)`. -/
def percentile (p : ℕ) (l : List ℚ) : ℚ :=
  (List.insertionSort (· ≤ ·) l).getD (min (p * l.length / 100) (l.length - 1)) 0

/-- Modelled from the spec: the remote `reduceRegion` reduction (spec §4.3,
§6) is performed by the Earth Engine service, which is not part of this
repository; the service reduces the pixel values of band `var` inside the
region with the combined mean/minMax/stdDev/percentile reducers and returns
a dict of band-prefixed statistic keys.  Percentiles are modelled
nearest-rank over the sorted pixel values; the `stdDev` entry carries the
variance, as the true standard deviation is irrational in general and no
claim depends on its value. -/
def reduceRegionStats (var : Str) (values : List ℚ) : List (Str × ℚ) :=
  [ (var ++ str "_mean", mean values)
  , (var ++ str "_min", listMin values)
  , (var ++ str "_max", listMax values)
  , (var ++ str "_stdDev", variance values)
  , (var ++ str "_p25", percentile 25 values)
  , (var ++ str "_p50", percentile 50 values)
  , (var ++ str "_p75", percentile 75 values) ]

/-- `list(stats.keys())[0].split('_')[0]`: the band name prefixing the first
key of the reducer's result dict.  (On an empty dict the Python indexing
raises, so the model is only meaningful for nonempty input.) -/
def var_name_of (stats : List (Str × ℚ)) : Str :=
  ((stats.map Prod.fst).headD []).takeWhile (fun c => c != '_')

/-- `data_processing.calculate_statistics`, renaming step: reformats the
reducer's band-prefixed dict into the fixed seven-key simplified schema,
defaulting each missing statistic to `0` (`stats.get(f'{var}_min', 0)` and
so on). -/
def calculate_statistics (stats : List (Str × ℚ)) : List (Str × ℚ) :=
  [ (str "min", (List.lookup (var_name_of stats ++ str "_min") stats).getD 0)
  , (str "max", (List.lookup (var_name_of stats ++ str "_max") stats).getD 0)
  , (str "mean", (List.lookup (var_name_of stats ++ str "_mean") stats).getD 0)
  , (str "stdDev", (List.lookup (var_name_of stats ++ str "_stdDev") stats).getD 0)
  , (str "median", (List.lookup (var_name_of stats ++ str "_p50") stats).getD 0)
  , (str "p25", (List.lookup (var_name_of stats ++ str "_p25") stats).getD 0)
  , (str "p75", (List.lookup (var_name_of stats ++ str "_p75") stats).getD 0) ]

/-- Reading one statistic out of the simplified dict. -/
def statOf (s : List (Str × ℚ)) (k : Str) : ℚ := (List.lookup k s).getD 0

/-! ## `utlils/data_loader.py` -/

/-- The local cache directory: file names with their raw contents, in
directory-listing order (`os.listdir`). -/
abbrev FS := List (Str × Str)

/-- `os.listdir(data_dir)`. -/
def listdir (fs : FS) : List Str := fs.map Prod.fst

/-- Reading an existing cache file (`open` + raw contents; the loaders'
`json.load` / `pd.read_csv` decoding is not what selects the file and the
contents are carried through opaquely). -/
def readFile (fs : FS) (f : Str) : Str := (List.lookup f fs).getD []

/-- Python's `f"{month:02d}"`. -/
def pad2 (month : ℕ) : Str :=
  if month < 10 then '0' :: (toString month).toList else (toString month).toList

/-- Python's `str.lower()` on the ASCII names the dashboard uses. -/
def lower (s : Str) : Str := s.map Char.toLower

/-- What a cache loader call comes to: an exact hit returned silently, a
fallback file returned together with the `st.warning` naming it, or no
matching file at all (`st.warning` + `None`). -/
inductive LoadResult where
  | exact (data : Str)
  | fallback (file : Str) (data : Str)
  | missing
deriving DecidableEq, Repr

/-- The exact-match file name `load_lst_data` constructs:
`f"lst_{year}_{month:02d}_{district.lower()}_{time_of_day.lower()}.json"`. -/
def lst_file_pattern (year : ℤ) (month : ℕ) (district time_of_day : Str) : Str :=
  str "lst_" ++ (toString year).toList ++ str "_" ++ pad2 month ++ str "_" ++
    lower district ++ str "_" ++ lower time_of_day ++ str ".json"

/-- `data_loader.load_lst_data`: returns the exact-match file when present;
otherwise falls back to the first file of the descending sort of all
`lst_*.json` files (warning the user), or reports no data. -/
def load_lst_data (fs : FS) (year : ℤ) (month : ℕ)
    (district time_of_day : Str) : LoadResult :=
  match List.lookup (lst_file_pattern year month district time_of_day) fs with
  | some data => .exact data
  | none =>
    let lst_files := (listdir fs).filter
      (fun f => (str "lst_").isPrefixOf f && (str ".json").isSuffixOf f)
    match sortDesc lst_files with
    | [] => .missing
    | best :: _ => .fallback best (readFile fs best)

/-- The exact-match file name `load_ndvi_data` constructs:
`f"ndvi_{year}_{month:02d}_{district.lower()}.json"` — it takes a
`time_of_day` argument but does not use it. -/
def ndvi_file_pattern (year : ℤ) (month : ℕ) (district : Str) : Str :=
  str "ndvi_" ++ (toString year).toList ++ str "_" ++ pad2 month ++ str "_" ++
    lower district ++ str ".json"

/-- `data_loader.load_ndvi_data`: like `load_lst_data` over `ndvi_*.json`
files; its `time_of_day` parameter is unused by the source. -/
def load_ndvi_data (fs : FS) (year : ℤ) (month : ℕ)
    (district time_of_day : Str) : LoadResult :=
  let _ := time_of_day
  match List.lookup (ndvi_file_pattern year month district) fs with
  | some data => .exact data
  | none =>
    let ndvi_files := (listdir fs).filter
      (fun f => (str "ndvi_").isPrefixOf f && (str ".json").isSuffixOf f)
    match sortDesc ndvi_files with
    | [] => .missing
    | best :: _ => .fallback best (readFile fs best)

/-- The exact-match file name `load_temporal_data` constructs:
`f"temporal_{variable_type.lower()}_{district.lower()}.csv"`. -/
def temporal_file_pattern (variable_type district : Str) : Str :=
  str "temporal_" ++ lower variable_type ++ str "_" ++ lower district ++ str ".csv"

/-- `data_loader.load_temporal_data`: returns the exact-match file when
present; otherwise falls back to `temporal_files[0]` — the first matching
`temporal_{variable_type}_*.csv` file in directory-listing order, with no
sort — or reports no data.  The year/month/time-of-day row filtering the
source applies to the loaded CSV is common to both branches and does not
affect which file is chosen; contents are carried through opaquely. -/
def load_temporal_data (fs : FS) (district : Str)
    (time_of_day variable_type : Str) : LoadResult :=
  let _ := time_of_day
  match List.lookup (temporal_file_pattern variable_type district) fs with
  | some data => .exact data
  | none =>
    let temporal_files := (listdir fs).filter
      (fun f => (str "temporal_" ++ lower variable_type ++ str "_").isPrefixOf f &&
        (str ".csv").isSuffixOf f)
    match temporal_files with
    | [] => .missing
    | first :: _ => .fallback first (readFile fs first)

/-! ## Helper lemmas -/

theorem lexLe_total (a b : Str) : lexLe a b = true ∨ lexLe b a = true := by
  induction a generalizing b with
  | nil => left; rfl
  | cons x xs ih =>
    cases b with
    | nil => right; rfl
    | cons y ys =>
      by_cases hxy : x < y
      · left; simp [lexLe, hxy]
      · by_cases hyx : y < x
        · right; simp [lexLe, hyx, hxy]
        · rcases ih ys with h | h
          · left; simp [lexLe, hxy, hyx, h]
          · right; simp [lexLe, hxy, hyx, h]

theorem lexLe_trans {a b c : Str} (hab : lexLe a b = true) (hbc : lexLe b c = true) :
    lexLe a c = true := by
  induction a generalizing b c with
  | nil => rfl
  | cons x xs ih =>
    cases b with
    | nil => simp [lexLe] at hab
    | cons y ys =>
      cases c with
      | nil => simp [lexLe] at hbc
      | cons z zs =>
        by_cases hxy : x < y
        · by_cases hyz : y < z
          · have hxz : x < z := lt_trans hxy hyz
            simp [lexLe, hxz]
          · by_cases hzy : z < y
            · simp [lexLe, hyz, hzy] at hbc
            · have hyzeq : y = z := le_antisymm (not_lt.mp hzy) (not_lt.mp hyz)
              subst hyzeq
              simp [lexLe, hxy]
        · by_cases hyx : y < x
          · simp [lexLe, hxy, hyx] at hab
          · have hxyeq : x = y := le_antisymm (not_lt.mp hyx) (not_lt.mp hxy)
            subst hxyeq
            by_cases hyz : x < z
            · simp [lexLe, hyz]
            · by_cases hzy : z < x
              · simp [lexLe, hyz, hzy] at hbc
              · simp [lexLe, hxy, hyx] at hab
                simp [lexLe, hyz, hzy] at hbc
                simp [lexLe, hyz, hzy]
                exact ih hab hbc

theorem mem_insertDesc {a x : Str} {l : List Str} :
    a ∈ insertDesc x l ↔ a = x ∨ a ∈ l := by
  induction l with
  | nil => simp [insertDesc]
  | cons y ys ih =>
    by_cases h : lexLe y x
    · simp [insertDesc, h]
    · simp [insertDesc, h, ih]
      tauto

/-- The head of the descending sort is a maximum of the list: it belongs to
the list and every element compares `lexLe` into it. -/
theorem sortDesc_head_max (l : List Str) (hne : l ≠ []) :
    ∃ m t, sortDesc l = m :: t ∧ m ∈ l ∧ ∀ a ∈ l, lexLe a m = true := by
  induction l with
  | nil => exact absurd rfl hne
  | cons x xs ih =>
    cases xs with
    | nil =>
      refine ⟨x, [], rfl, by simp, ?_⟩
      intro a ha
      rcases List.mem_singleton.mp ha with rfl
      rcases lexLe_total a a with h | h <;> exact h
    | cons y ys =>
      rcases ih (by simp) with ⟨m, t, hsort, hmem, hmax⟩
      have hstep : sortDesc (x :: y :: ys) = insertDesc x (m :: t) := by
        simpa [sortDesc] using congrArg (insertDesc x) hsort
      by_cases h : lexLe m x
      · refine ⟨x, m :: t, by simp [hstep, insertDesc, h], by simp, ?_⟩
        intro a ha
        rcases List.mem_cons.mp ha with rfl | ha
        · rcases lexLe_total a a with h' | h' <;> exact h'
        · exact lexLe_trans (hmax a ha) h
      · have hxm : lexLe x m = true := by
          rcases lexLe_total m x with h' | h'
          · exact absurd h' h
          · exact h'
        refine ⟨m, insertDesc x t, by simp [hstep, insertDesc, h],
          List.mem_cons_of_mem x hmem, ?_⟩
        intro a ha
        rcases List.mem_cons.mp ha with rfl | ha
        · exact hxm
        · exact hmax a ha

/-- Association-list lookup misses every key not among the stored keys. -/
theorem lookup_eq_none_of_not_mem {β : Type} {a : Str} {l : List (Str × β)}
    (h : a ∉ l.map Prod.fst) : List.lookup a l = none := by
  induction l with
  | nil => rfl
  | cons p ps ih =>
    rcases p with ⟨k, v⟩
    simp only [List.map_cons, List.mem_cons, not_or] at h
    have hne : (a == k) = false := beq_eq_false_iff_ne.mpr h.1
    rw [List.lookup, hne]
    exact ih h.2

/-! ## Claim theorems -/

/-- C1: for every year, `get_landsat_collection` chooses the Landsat 9
collection id when `year ≥ 2022`, the Landsat 8 id when
`2013 ≤ year ≤ 2021`, and the Landsat 7 id when `year < 2013`. -/
theorem get_landsat_collection_year_thresholds (year month : ℤ) (time_of_day : Str) :
    (2022 ≤ year →
      (get_landsat_collection year month time_of_day).collectionId =
        str "LANDSAT/LC09/C02/T1_L2") ∧
    (2013 ≤ year ∧ year ≤ 2021 →
      (get_landsat_collection year month time_of_day).collectionId =
        str "LANDSAT/LC08/C02/T1_L2") ∧
    (year < 2013 →
      (get_landsat_collection year month time_of_day).collectionId =
        str "LANDSAT/LE07/C02/T1_L2") := by
  have hc : (get_landsat_collection year month time_of_day).collectionId =
      if year ≥ 2022 then str "LANDSAT/LC09/C02/T1_L2"
      else if year ≥ 2013 then str "LANDSAT/LC08/C02/T1_L2"
      else str "LANDSAT/LE07/C02/T1_L2" := rfl
  refine ⟨fun h => ?_, fun h => ?_, fun h => ?_⟩
  · rw [hc, if_pos (by omega)]
  · rw [hc, if_neg (by omega), if_pos (by omega)]
  · rw [hc, if_neg (by omega), if_neg (by omega)]

theorem get_landsat_collection_year_thresholds_check :
    (get_landsat_collection 2024 6 (str "Daytime")).collectionId =
        str "LANDSAT/LC09/C02/T1_L2" ∧
    (get_landsat_collection 2018 6 (str "Daytime")).collectionId =
        str "LANDSAT/LC08/C02/T1_L2" ∧
    (get_landsat_collection 2005 6 (str "Nighttime")).collectionId =
        str "LANDSAT/LE07/C02/T1_L2" :=
  ⟨(get_landsat_collection_year_thresholds 2024 6 (str "Daytime")).1 (by norm_num),
   (get_landsat_collection_year_thresholds 2018 6 (str "Daytime")).2.1 (by norm_num),
   (get_landsat_collection_year_thresholds 2005 6 (str "Nighttime")).2.2 (by norm_num)⟩

/-- C10: `get_district_boundary` is total: `"All"` yields the Tamil Nadu
bounding box `[76, 8, 81, 14]`, each of the nine tabulated districts yields
its listed rectangle, and every other name yields the fixed default
rectangle `[78, 11, 78.5, 11.5]`. -/
theorem get_district_boundary_total :
    get_district_boundary (str "All") = ⟨76, 8, 81, 14⟩ ∧
    get_district_boundary (str "Chennai") = ⟨801/10, 129/10, 803/10, 132/10⟩ ∧
    get_district_boundary (str "Coimbatore") = ⟨768/10, 109/10, 771/10, 112/10⟩ ∧
    get_district_boundary (str "Madurai") = ⟨78, 98/10, 783/10, 10⟩ ∧
    get_district_boundary (str "Ariyalur") = ⟨79, 11, 793/10, 113/10⟩ ∧
    get_district_boundary (str "Cuddalore") = ⟨795/10, 115/10, 798/10, 118/10⟩ ∧
    get_district_boundary (str "Dharmapuri") = ⟨78, 12, 783/10, 123/10⟩ ∧
    get_district_boundary (str "Dindigul") = ⟨778/10, 102/10, 781/10, 105/10⟩ ∧
    get_district_boundary (str "Erode") = ⟨774/10, 112/10, 777/10, 115/10⟩ ∧
    get_district_boundary (str "Tirunelveli") = ⟨776/10, 86/10, 779/10, 89/10⟩ ∧
    ∀ name : Str, name ≠ str "All" → name ∉ district_coords.map Prod.fst →
      get_district_boundary name = ⟨78, 11, 785/10, 115/10⟩ := by
  refine ⟨rfl, rfl, rfl, rfl, rfl, rfl, rfl, rfl, rfl, rfl, ?_⟩
  intro name hall hmem
  unfold get_district_boundary
  rw [if_neg hall, lookup_eq_none_of_not_mem hmem]

theorem get_district_boundary_total_check :
    get_district_boundary (str "Salem") = ⟨78, 11, 785/10, 115/10⟩ :=
  get_district_boundary_total.2.2.2.2.2.2.2.2.2.2 (str "Salem")
    (by decide) (by decide)

/-- C6: whenever the filtered collection holds zero images,
`process_landsat_data` returns a placeholder constant layer — value `25.0`
for `'LST'` and `0.3` for `'NDVI'` — clipped to the district region, and
returns that region. -/
theorem process_landsat_data_empty_placeholder (collection : Collection)
    (district variable_type time_of_day : Str) (h : collection.size = 0) :
    (variable_type = str "LST" →
      (process_landsat_data collection district variable_type time_of_day).1.pixelValue
        = 25) ∧
    (variable_type = str "NDVI" →
      (process_landsat_data collection district variable_type time_of_day).1.pixelValue
        = 3/10) ∧
    (process_landsat_data collection district variable_type time_of_day).1.clippedTo
      = some (get_district_boundary district) ∧
    (process_landsat_data collection district variable_type time_of_day).2
      = get_district_boundary district := by
  unfold process_landsat_data
  rw [if_pos h]
  refine ⟨fun hv => ?_, fun hv => ?_, ?_, ?_⟩
  · simp [hv, Layer.clip]
  · have hne : variable_type ≠ str "LST" := by
      rw [hv]; decide
    simp [hne, Layer.clip]
  · by_cases hv : variable_type = str "LST" <;> simp [hv, Layer.clip]
  · rfl

theorem process_landsat_data_empty_placeholder_check :
    (process_landsat_data ⟨0, ⟨[]⟩⟩ (str "Chennai") (str "LST")
        (str "Daytime")).1.pixelValue = 25 ∧
    (process_landsat_data ⟨0, ⟨[]⟩⟩ (str "Chennai") (str "NDVI")
        (str "Daytime")).1.pixelValue = 3/10 ∧
    (process_landsat_data ⟨0, ⟨[]⟩⟩ (str "Chennai") (str "LST")
        (str "Daytime")).1.clippedTo = some (get_district_boundary (str "Chennai")) :=
  ⟨(process_landsat_data_empty_placeholder ⟨0, ⟨[]⟩⟩ (str "Chennai") (str "LST")
      (str "Daytime") rfl).1 rfl,
   (process_landsat_data_empty_placeholder ⟨0, ⟨[]⟩⟩ (str "Chennai") (str "NDVI")
      (str "Daytime") rfl).2.1 rfl,
   (process_landsat_data_empty_placeholder ⟨0, ⟨[]⟩⟩ (str "Chennai") (str "LST")
      (str "Daytime") rfl).2.2.1⟩

/-- C7: the claimed probe never happens.  Every `band_names.contains(...)`
result is an always-truthy server-side object, so `get_lst_layer`
unconditionally selects `ST_B10` on every image — its result reads only the
`ST_B10` band, whatever bands the image has, so the `ST_B6`/`B10`/`B6`
candidates are never consulted and the `298` Kelvin fallback is
unreachable; on an image without an `ST_B10` band the selection is a
server-side error rather than the claimed ~25 °C substitute. -/
theorem get_lst_layer_always_selects_first (image : Image) :
    (get_lst_layer image).name = str "LST" ∧
    (get_lst_layer image).pixelValue =
      image.select (str "ST_B10") * (341802/100000000) + 149 - 27315/100 :=
  ⟨rfl, rfl⟩

/-- C2: on every four-point series lying exactly on the line
`y = x/2 + b` (with at least two distinct x-values, as in the years
`[2018, 2020, 2022, 2024]`), `calculate_regression` returns slope `0.5`,
intercept `b` — so `slope·x + intercept = y` at every point — and
`r_squared = 1`. -/
theorem calculate_regression_perfect_linear (x0 x1 x2 x3 b : ℚ) (h01 : x0 ≠ x1) :
    (calculate_regression [x0, x1, x2, x3]
        [x0/2 + b, x1/2 + b, x2/2 + b, x3/2 + b]).slope = some (1/2) ∧
    (calculate_regression [x0, x1, x2, x3]
        [x0/2 + b, x1/2 + b, x2/2 + b, x3/2 + b]).intercept = some b ∧
    (calculate_regression [x0, x1, x2, x3]
        [x0/2 + b, x1/2 + b, x2/2 + b, x3/2 + b]).r_squared = some 1 ∧
    ∀ p ∈ List.zip [x0, x1, x2, x3] [x0/2 + b, x1/2 + b, x2/2 + b, x3/2 + b],
      (1/2) * p.1 + b = p.2 := by
  have hs : (0:ℚ) < (x0 - x1)^2 := by
    have h := sub_ne_zero.mpr h01
    positivity
  have hdx : ¬ ((4:ℚ) * (x0 * x0 + (x1 * x1 + (x2 * x2 + x3 * x3))) -
      (x0 + (x1 + (x2 + x3))) * (x0 + (x1 + (x2 + x3))) = 0) := by
    intro h0
    nlinarith [hs, sq_nonneg (x0 - x2), sq_nonneg (x0 - x3), sq_nonneg (x1 - x2),
      sq_nonneg (x1 - x3), sq_nonneg (x2 - x3)]
  have hdy : ¬ ((4:ℚ) * ((x0/2 + b) * (x0/2 + b) + ((x1/2 + b) * (x1/2 + b) +
        ((x2/2 + b) * (x2/2 + b) + (x3/2 + b) * (x3/2 + b)))) -
      (x0/2 + b + (x1/2 + b + (x2/2 + b + (x3/2 + b)))) *
        (x0/2 + b + (x1/2 + b + (x2/2 + b + (x3/2 + b)))) = 0) := by
    intro h0
    exact hdx (by linear_combination 4 * h0)
  refine ⟨?_, ?_, ?_, ?_⟩
  · simp only [calculate_regression, List.map_cons, List.map_nil, List.sum_cons,
      List.sum_nil, List.zip_cons_cons, List.zip_nil_right, List.length_cons,
      List.length_nil]
    norm_num
    refine ⟨hdx, ?_⟩
    field_simp
    ring
  · simp only [calculate_regression, List.map_cons, List.map_nil, List.sum_cons,
      List.sum_nil, List.zip_cons_cons, List.zip_nil_right, List.length_cons,
      List.length_nil]
    norm_num
    refine ⟨hdx, ?_⟩
    field_simp
    ring
  · simp only [calculate_regression, List.map_cons, List.map_nil, List.sum_cons,
      List.sum_nil, List.zip_cons_cons, List.zip_nil_right, List.length_cons,
      List.length_nil]
    norm_num
    refine ⟨⟨hdx, hdy⟩, ?_⟩
    rw [div_eq_one_iff_eq (mul_ne_zero hdx hdy)]
    ring
  · intro p hp
    simp only [List.zip_cons_cons, List.zip_nil_right, List.mem_cons,
      List.not_mem_nil, or_false] at hp
    rcases hp with rfl | rfl | rfl | rfl <;> · dsimp; ring

theorem calculate_regression_perfect_linear_check :
    (calculate_regression [2018, 2020, 2022, 2024]
        [30, 31, 32, 33]).slope = some (1/2) ∧
    (calculate_regression [2018, 2020, 2022, 2024]
        [30, 31, 32, 33]).intercept = some (-979) ∧
    (calculate_regression [2018, 2020, 2022, 2024]
        [30, 31, 32, 33]).r_squared = some 1 := by
  have h := calculate_regression_perfect_linear 2018 2020 2022 2024 (-979)
    (by norm_num)
  have hys : [(2018:ℚ)/2 + -979, 2020/2 + -979, 2022/2 + -979, 2024/2 + -979] =
      [30, 31, 32, 33] := by norm_num
  rw [hys] at h
  exact ⟨h.1, h.2.1, h.2.2.1⟩

/-- C3: on a constant-valued series the code's `np.corrcoef` divides by the
zero standard deviation of `y`, so `r_squared` comes out as NaN (embedded
`none`): the claimed graceful `0`/undefined report does not happen.  At the
failing input `x = [2018, 2020]`, `y = [30, 30]` the fitted slope and
intercept are still defined (`0` and `30`), but `r_squared` is NaN. -/
theorem calculate_regression_constant_y_nan :
    (calculate_regression [2018, 2020] [30, 30]).r_squared = none ∧
    (calculate_regression [2018, 2020] [30, 30]).slope = some 0 ∧
    (calculate_regression [2018, 2020] [30, 30]).intercept = some 30 := by
  refine ⟨?_, ?_, ?_⟩ <;> · norm_num [calculate_regression]

/-- C5 counterexample: with the cache directory listing
`temporal_lst_madurai.csv` before `temporal_lst_salem.csv` and no exact
match for Chennai, `load_temporal_data` returns the contents of
`temporal_lst_madurai.csv` — the first file in listing order — even though
`temporal_lst_salem.csv` also matches the prefix and is lexicographically
strictly greater, so the loader does not fall back to the lexicographically
greatest matching file. -/
theorem load_temporal_data_not_greatest :
    load_temporal_data
        [(str "temporal_lst_madurai.csv", str "M"),
         (str "temporal_lst_salem.csv", str "S")]
        (str "Chennai") (str "Daytime") (str "LST") =
      .fallback (str "temporal_lst_madurai.csv") (str "M") ∧
    str "temporal_lst_salem.csv" ∈
      (listdir [(str "temporal_lst_madurai.csv", str "M"),
                (str "temporal_lst_salem.csv", str "S")]).filter
        (fun f => (str "temporal_" ++ lower (str "LST") ++ str "_").isPrefixOf f &&
          (str ".csv").isSuffixOf f) ∧
    lexLe (str "temporal_lst_madurai.csv") (str "temporal_lst_salem.csv") = true ∧
    str "temporal_lst_madurai.csv" ≠ str "temporal_lst_salem.csv" := by
  refine ⟨by decide, by decide, by decide, by decide⟩

/-- C5 (amended): when the exact cache file is missing, `load_lst_data` and
`load_ndvi_data` fall back — with a user-visible warning — to the
lexicographically greatest file with the matching prefix and suffix, while
`load_temporal_data` falls back to the first matching file in
directory-listing order; each returns that file's contents rather than
raising. -/
theorem cache_loader_fallback (fs : FS) (year : ℤ) (month : ℕ)
    (district time_of_day variable_type : Str) :
    (List.lookup (lst_file_pattern year month district time_of_day) fs = none →
      (listdir fs).filter
        (fun f => (str "lst_").isPrefixOf f && (str ".json").isSuffixOf f) ≠ [] →
      ∃ m, load_lst_data fs year month district time_of_day =
          .fallback m (readFile fs m) ∧
        m ∈ (listdir fs).filter
          (fun f => (str "lst_").isPrefixOf f && (str ".json").isSuffixOf f) ∧
        ∀ g ∈ (listdir fs).filter
          (fun f => (str "lst_").isPrefixOf f && (str ".json").isSuffixOf f),
          lexLe g m = true) ∧
    (List.lookup (ndvi_file_pattern year month district) fs = none →
      (listdir fs).filter
        (fun f => (str "ndvi_").isPrefixOf f && (str ".json").isSuffixOf f) ≠ [] →
      ∃ m, load_ndvi_data fs year month district time_of_day =
          .fallback m (readFile fs m) ∧
        m ∈ (listdir fs).filter
          (fun f => (str "ndvi_").isPrefixOf f && (str ".json").isSuffixOf f) ∧
        ∀ g ∈ (listdir fs).filter
          (fun f => (str "ndvi_").isPrefixOf f && (str ".json").isSuffixOf f),
          lexLe g m = true) ∧
    (List.lookup (temporal_file_pattern variable_type district) fs = none →
      ∀ first rest, (listdir fs).filter
          (fun f => (str "temporal_" ++ lower variable_type ++ str "_").isPrefixOf f &&
            (str ".csv").isSuffixOf f) = first :: rest →
        load_temporal_data fs district time_of_day variable_type =
          .fallback first (readFile fs first)) := by
  refine ⟨fun hmiss hne => ?_, fun hmiss hne => ?_, fun hmiss first rest hfil => ?_⟩
  · obtain ⟨m, t, hsort, hmem, hmax⟩ := sortDesc_head_max _ hne
    refine ⟨m, ?_, hmem, hmax⟩
    unfold load_lst_data
    rw [hmiss]
    simp [hsort]
  · obtain ⟨m, t, hsort, hmem, hmax⟩ := sortDesc_head_max _ hne
    refine ⟨m, ?_, hmem, hmax⟩
    unfold load_ndvi_data
    rw [hmiss]
    simp [hsort]
  · unfold load_temporal_data
    rw [hmiss, hfil]

theorem cache_loader_fallback_check :
    ∃ m, load_lst_data [(str "lst_2023_05_chennai_daytime.json", str "A")] 2024 5
        (str "Chennai") (str "Daytime") =
      .fallback m (readFile [(str "lst_2023_05_chennai_daytime.json", str "A")] m) ∧
      m ∈ (listdir [(str "lst_2023_05_chennai_daytime.json", str "A")]).filter
        (fun f => (str "lst_").isPrefixOf f && (str ".json").isSuffixOf f) ∧
      ∀ g ∈ (listdir [(str "lst_2023_05_chennai_daytime.json", str "A")]).filter
        (fun f => (str "lst_").isPrefixOf f && (str ".json").isSuffixOf f),
        lexLe g m = true :=
  (cache_loader_fallback [(str "lst_2023_05_chennai_daytime.json", str "A")] 2024 5
    (str "Chennai") (str "Daytime") (str "LST")).1 (by decide) (by decide)

/-- C8 counterexample: the exact-match file name `load_ndvi_data` constructs
for `(2023, 7, "Chennai", "Daytime")` is `ndvi_2023_07_chennai.json` — it
omits the time-of-day component the claimed naming convention requires — and
a cache holding only the convention-named
`ndvi_2023_07_chennai_daytime.json` is found by the fallback path (with a
warning), not as an exact match. -/
theorem load_ndvi_data_time_in_name_counter :
    ndvi_file_pattern 2023 7 (str "Chennai") = str "ndvi_2023_07_chennai.json" ∧
    ndvi_file_pattern 2023 7 (str "Chennai") ≠
      str "ndvi_2023_07_chennai_daytime.json" ∧
    load_ndvi_data [(str "ndvi_2023_07_chennai_daytime.json", str "D")] 2023 7
        (str "Chennai") (str "Daytime") =
      .fallback (str "ndvi_2023_07_chennai_daytime.json") (str "D") := by
  refine ⟨by decide, by decide, by decide⟩

/-- C8 (amended): `load_ndvi_data` looks up the file
`ndvi_{year}_{month:02d}_{district}.json`, with no time-of-day component:
its result never depends on `time_of_day`, and a cache file under that
time-free name is returned as the exact match. -/
theorem load_ndvi_data_time_free_name (fs : FS) (year : ℤ) (month : ℕ)
    (district t1 t2 : Str) :
    ndvi_file_pattern year month district =
      str "ndvi_" ++ (toString year).toList ++ str "_" ++ pad2 month ++ str "_" ++
        lower district ++ str ".json" ∧
    load_ndvi_data fs year month district t1 =
      load_ndvi_data fs year month district t2 ∧
    ∀ data, List.lookup (ndvi_file_pattern year month district) fs = some data →
      load_ndvi_data fs year month district t1 = .exact data := by
  refine ⟨rfl, rfl, fun data h => ?_⟩
  unfold load_ndvi_data
  rw [h]

theorem load_ndvi_data_time_free_name_check :
    load_ndvi_data [(str "ndvi_2023_07_chennai.json", str "D")] 2023 7
        (str "Chennai") (str "Daytime") = .exact (str "D") :=
  (load_ndvi_data_time_free_name [(str "ndvi_2023_07_chennai.json", str "D")]
    2023 7 (str "Chennai") (str "Daytime") (str "Nighttime")).2.2
    (str "D") (by decide)

theorem foldl_min_le_init (xs : List ℚ) (i : ℚ) : xs.foldl min i ≤ i := by
  induction xs generalizing i with
  | nil => exact le_refl i
  | cons x xs ih => exact le_trans (ih (min i x)) (min_le_left i x)

theorem foldl_min_le_mem {a : ℚ} (xs : List ℚ) :
    ∀ i : ℚ, a ∈ xs → xs.foldl min i ≤ a := by
  induction xs with
  | nil => intro i ha; cases ha
  | cons x xs ih =>
    intro i ha
    rcases List.mem_cons.mp ha with rfl | ha'
    · exact le_trans (foldl_min_le_init xs (min i a)) (min_le_right i a)
    · exact ih (min i x) ha'

theorem listMin_le_mem {a : ℚ} {l : List ℚ} (ha : a ∈ l) : listMin l ≤ a := by
  cases l with
  | nil => cases ha
  | cons x xs =>
    rcases List.mem_cons.mp ha with rfl | ha'
    · exact foldl_min_le_init xs a
    · exact foldl_min_le_mem xs x ha'

theorem init_le_foldl_max (xs : List ℚ) (i : ℚ) : i ≤ xs.foldl max i := by
  induction xs generalizing i with
  | nil => exact le_refl i
  | cons x xs ih => exact le_trans (le_max_left i x) (ih (max i x))

theorem mem_le_foldl_max {a : ℚ} (xs : List ℚ) :
    ∀ i : ℚ, a ∈ xs → a ≤ xs.foldl max i := by
  induction xs with
  | nil => intro i ha; cases ha
  | cons x xs ih =>
    intro i ha
    rcases List.mem_cons.mp ha with rfl | ha'
    · exact le_trans (le_max_right i a) (init_le_foldl_max xs (max i a))
    · exact ih (max i x) ha'

theorem mem_le_listMax {a : ℚ} {l : List ℚ} (ha : a ∈ l) : a ≤ listMax l := by
  cases l with
  | nil => cases ha
  | cons x xs =>
    rcases List.mem_cons.mp ha with rfl | ha'
    · exact init_le_foldl_max xs a
    · exact mem_le_foldl_max xs x ha'

theorem percentile_mem (p : ℕ) (l : List ℚ) (h : l ≠ []) : percentile p l ∈ l := by
  have hpos : 0 < l.length := List.length_pos.mpr h
  have hlen : (List.insertionSort (· ≤ ·) l).length = l.length :=
    (List.perm_insertionSort _ l).length_eq
  have hidx : min (p * l.length / 100) (l.length - 1) <
      (List.insertionSort (· ≤ ·) l).length := by
    have := min_le_right (p * l.length / 100) (l.length - 1)
    omega
  rw [percentile, List.getD_eq_getElem _ _ hidx]
  exact (List.perm_insertionSort (· ≤ ·) l).mem_iff.mp (List.getElem_mem _)

theorem listMin_le_percentile (p : ℕ) (l : List ℚ) (h : l ≠ []) :
    listMin l ≤ percentile p l :=
  listMin_le_mem (percentile_mem p l h)

theorem percentile_le_listMax (p : ℕ) (l : List ℚ) (h : l ≠ []) :
    percentile p l ≤ listMax l :=
  mem_le_listMax (percentile_mem p l h)

theorem percentile_mono {p q : ℕ} (hpq : p ≤ q) (l : List ℚ) (h : l ≠ []) :
    percentile p l ≤ percentile q l := by
  have hpos : 0 < l.length := List.length_pos.mpr h
  have hlen : (List.insertionSort (· ≤ ·) l).length = l.length :=
    (List.perm_insertionSort _ l).length_eq
  have hip : min (p * l.length / 100) (l.length - 1) <
      (List.insertionSort (· ≤ ·) l).length := by
    have := min_le_right (p * l.length / 100) (l.length - 1)
    omega
  have hiq : min (q * l.length / 100) (l.length - 1) <
      (List.insertionSort (· ≤ ·) l).length := by
    have := min_le_right (q * l.length / 100) (l.length - 1)
    omega
  have hle : min (p * l.length / 100) (l.length - 1) ≤
      min (q * l.length / 100) (l.length - 1) :=
    min_le_min (Nat.div_le_div_right (Nat.mul_le_mul_right _ hpq)) (le_refl _)
  rw [percentile, percentile, List.getD_eq_getElem _ _ hip,
    List.getD_eq_getElem _ _ hiq]
  have hsorted := List.sorted_insertionSort (· ≤ ·) l
  have hrel := List.Sorted.rel_get_of_le hsorted
    (a := ⟨_, hip⟩) (b := ⟨_, hiq⟩) (Fin.mk_le_mk.mpr hle)
  simpa [List.get_eq_getElem] using hrel

theorem listMin_le_mean (l : List ℚ) (h : l ≠ []) : listMin l ≤ mean l := by
  have hpos : 0 < l.length := List.length_pos.mpr h
  have hq : (0:ℚ) < (l.length : ℚ) := by exact_mod_cast hpos
  rw [mean, le_div_iff₀ hq]
  have hb : l.length • listMin l ≤ l.sum :=
    List.card_nsmul_le_sum l (listMin l) (fun x hx => listMin_le_mem hx)
  calc listMin l * (l.length : ℚ) = l.length • listMin l := by
        rw [nsmul_eq_mul]; ring
    _ ≤ l.sum := hb

theorem mean_le_listMax (l : List ℚ) (h : l ≠ []) : mean l ≤ listMax l := by
  have hpos : 0 < l.length := List.length_pos.mpr h
  have hq : (0:ℚ) < (l.length : ℚ) := by exact_mod_cast hpos
  rw [mean, div_le_iff₀ hq]
  have hb : l.sum ≤ l.length • listMax l :=
    List.sum_le_card_nsmul l (listMax l) (fun x hx => mem_le_listMax hx)
  calc l.sum ≤ l.length • listMax l := hb
    _ = listMax l * (l.length : ℚ) := by rw [nsmul_eq_mul]; ring

/-- C4: for a reduction of a nonempty list of pixel values for either band,
the simplified statistics returned by `calculate_statistics` satisfy
`min ≤ p25 ≤ median ≤ p75 ≤ max`, and the mean lies within `[min, max]`. -/
theorem calculate_statistics_ordered (var : Str) (values : List ℚ)
    (hvar : var = str "LST" ∨ var = str "NDVI") (hne : values ≠ []) :
    statOf (calculate_statistics (reduceRegionStats var values)) (str "min") ≤
      statOf (calculate_statistics (reduceRegionStats var values)) (str "p25") ∧
    statOf (calculate_statistics (reduceRegionStats var values)) (str "p25") ≤
      statOf (calculate_statistics (reduceRegionStats var values)) (str "median") ∧
    statOf (calculate_statistics (reduceRegionStats var values)) (str "median") ≤
      statOf (calculate_statistics (reduceRegionStats var values)) (str "p75") ∧
    statOf (calculate_statistics (reduceRegionStats var values)) (str "p75") ≤
      statOf (calculate_statistics (reduceRegionStats var values)) (str "max") ∧
    statOf (calculate_statistics (reduceRegionStats var values)) (str "min") ≤
      statOf (calculate_statistics (reduceRegionStats var values)) (str "mean") ∧
    statOf (calculate_statistics (reduceRegionStats var values)) (str "mean") ≤
      statOf (calculate_statistics (reduceRegionStats var values)) (str "max") := by
  rcases hvar with rfl | rfl <;>
    exact ⟨listMin_le_percentile 25 values hne,
      percentile_mono (by norm_num) values hne,
      percentile_mono (by norm_num) values hne,
      percentile_le_listMax 75 values hne,
      listMin_le_mean values hne,
      mean_le_listMax values hne⟩

theorem calculate_statistics_ordered_check :
    statOf (calculate_statistics (reduceRegionStats (str "LST") [3, 1, 2]))
        (str "min") ≤
      statOf (calculate_statistics (reduceRegionStats (str "LST") [3, 1, 2]))
        (str "p25") ∧
    statOf (calculate_statistics (reduceRegionStats (str "LST") [3, 1, 2]))
        (str "p25") ≤
      statOf (calculate_statistics (reduceRegionStats (str "LST") [3, 1, 2]))
        (str "median") ∧
    statOf (calculate_statistics (reduceRegionStats (str "LST") [3, 1, 2]))
        (str "median") ≤
      statOf (calculate_statistics (reduceRegionStats (str "LST") [3, 1, 2]))
        (str "p75") ∧
    statOf (calculate_statistics (reduceRegionStats (str "LST") [3, 1, 2]))
        (str "p75") ≤
      statOf (calculate_statistics (reduceRegionStats (str "LST") [3, 1, 2]))
        (str "max") ∧
    statOf (calculate_statistics (reduceRegionStats (str "LST") [3, 1, 2]))
        (str "min") ≤
      statOf (calculate_statistics (reduceRegionStats (str "LST") [3, 1, 2]))
        (str "mean") ∧
    statOf (calculate_statistics (reduceRegionStats (str "LST") [3, 1, 2]))
        (str "mean") ≤
      statOf (calculate_statistics (reduceRegionStats (str "LST") [3, 1, 2]))
        (str "max") :=
  calculate_statistics_ordered (str "LST") [3, 1, 2] (Or.inl rfl) (by decide)

/-- C9: on every nonempty reducer result, `calculate_statistics` returns a
dict with exactly the seven keys `min, max, mean, stdDev, median, p25, p75`
in that order, and silently substitutes the default `0` for every statistic
key missing from the reducer output. -/
theorem calculate_statistics_keys_defaults (stats : List (Str × ℚ))
    (hne : stats ≠ []) :
    ((calculate_statistics stats).map Prod.fst =
      [str "min", str "max", str "mean", str "stdDev", str "median",
       str "p25", str "p75"]) ∧
    (List.lookup (var_name_of stats ++ str "_min") stats = none →
      statOf (calculate_statistics stats) (str "min") = 0) ∧
    (List.lookup (var_name_of stats ++ str "_max") stats = none →
      statOf (calculate_statistics stats) (str "max") = 0) ∧
    (List.lookup (var_name_of stats ++ str "_mean") stats = none →
      statOf (calculate_statistics stats) (str "mean") = 0) ∧
    (List.lookup (var_name_of stats ++ str "_stdDev") stats = none →
      statOf (calculate_statistics stats) (str "stdDev") = 0) ∧
    (List.lookup (var_name_of stats ++ str "_p50") stats = none →
      statOf (calculate_statistics stats) (str "median") = 0) ∧
    (List.lookup (var_name_of stats ++ str "_p25") stats = none →
      statOf (calculate_statistics stats) (str "p25") = 0) ∧
    (List.lookup (var_name_of stats ++ str "_p75") stats = none →
      statOf (calculate_statistics stats) (str "p75") = 0) := by
  refine ⟨rfl, fun h => ?_, fun h => ?_, fun h => ?_, fun h => ?_,
    fun h => ?_, fun h => ?_, fun h => ?_⟩
  · rw [show statOf (calculate_statistics stats) (str "min") =
      (List.lookup (var_name_of stats ++ str "_min") stats).getD 0 from rfl, h]
    rfl
  · rw [show statOf (calculate_statistics stats) (str "max") =
      (List.lookup (var_name_of stats ++ str "_max") stats).getD 0 from rfl, h]
    rfl
  · rw [show statOf (calculate_statistics stats) (str "mean") =
      (List.lookup (var_name_of stats ++ str "_mean") stats).getD 0 from rfl, h]
    rfl
  · rw [show statOf (calculate_statistics stats) (str "stdDev") =
      (List.lookup (var_name_of stats ++ str "_stdDev") stats).getD 0 from rfl, h]
    rfl
  · rw [show statOf (calculate_statistics stats) (str "median") =
      (List.lookup (var_name_of stats ++ str "_p50") stats).getD 0 from rfl, h]
    rfl
  · rw [show statOf (calculate_statistics stats) (str "p25") =
      (List.lookup (var_name_of stats ++ str "_p25") stats).getD 0 from rfl, h]
    rfl
  · rw [show statOf (calculate_statistics stats) (str "p75") =
      (List.lookup (var_name_of stats ++ str "_p75") stats).getD 0 from rfl, h]
    rfl

theorem calculate_statistics_keys_defaults_check :
    ((calculate_statistics [(str "LST_mean", (5:ℚ))]).map Prod.fst =
      [str "min", str "max", str "mean", str "stdDev", str "median",
       str "p25", str "p75"]) ∧
    statOf (calculate_statistics [(str "LST_mean", (5:ℚ))]) (str "min") = 0 :=
  ⟨(calculate_statistics_keys_defaults [(str "LST_mean", 5)] (by decide)).1,
   (calculate_statistics_keys_defaults [(str "LST_mean", 5)] (by decide)).2.1
     (by decide)⟩

end LstSite
